import Mathlib

/-!
Verification development for the maps-scraper repository.

The repository contains four near-duplicate evolutions of one Express
scrape handler:
  * server.js, first handler  (referred to below as V1): limit capped at 100,
    lastName adjacent-duplicate suppression, a try block with no catch and
    no finally (browser.close only on the success path).
  * server.js, second handler (referred to below as V2): limit capped at 50,
    no duplicate suppression, reviews kept as a string, catch plus finally.
  * unnamed/part_000 and part_001 (P0): limit capped at 100, no duplicate
    suppression, integer reviews, catch plus finally, 20-try feed loader.

Pure helper functions (email extraction, website normalisation, review-count
parsing, the limit computation, the feed loaders) are embedded directly; the
stateful handler is embedded as a function from an explicit environment
(launch outcome, navigation outcomes, rendered feed entries) to a trace
recording the HTTP response and the browser lifecycle.
-/

namespace MapsScraper

/- ### Character classes of the JavaScript regular expressions (ASCII) -/

/-- Character class of the local part of the email pattern:
[a-zA-Z0-9._%+-]. Char.isAlpha and Char.isDigit test exactly the ASCII
ranges, matching the JavaScript classes. -/
def emailLocalChar (c : Char) : Bool :=
  c.isAlpha || c.isDigit || c = '.' || c = '_' || c = '%' || c = '+' || c = '-'

/-- Character class of the domain part of the email pattern: [a-zA-Z0-9.-]. -/
def emailDomainChar (c : Char) : Bool :=
  c.isAlpha || c.isDigit || c = '.' || c = '-'

/-- ASCII white space as matched by the JavaScript class backslash-s
(the Unicode space characters never occur in the inputs considered here). -/
def isJsSpace (c : Char) : Bool :=
  c = ' ' || c = '\t' || c = '\n' || c = '\r' || c = '\x0b' || c = '\x0c'

/-- ASCII lower-casing of one character, as String.prototype.toLowerCase
acts on the ASCII-only strings produced by the email pattern. -/
def lowerChar (c : Char) : Char :=
  if 'A' ≤ c ∧ c ≤ 'Z' then Char.ofNat (c.toNat + 32) else c

/-- ASCII lower-casing of a string. -/
def lowerStr (s : String) : String :=
  String.mk (s.data.map lowerChar)

/-- Substring test on character lists (String.prototype.includes). -/
def hasSubstr (needle : List Char) : List Char → Bool
  | [] => needle.isEmpty
  | c :: cs => needle.isPrefixOf (c :: cs) || hasSubstr needle cs

/- ### The email matcher: /[a-zA-Z0-9._%+-]+@[a-zA-Z0-9.-]+\.[a-zA-Z]{2,}/g

The JavaScript engine scans left to right; at each position the plus
quantifiers are greedy with backtracking.  For this pattern the attempt at a
position succeeds exactly when: a nonempty maximal run of local characters is
followed by an at sign, and in the maximal run D of domain characters that
follows there is a largest index k with D[k] a dot such that at least two
ASCII letters follow position k (the letter run cannot extend past D because
letters are domain characters). -/

/-- Search, from candidate index n downwards to 1, for the largest dot
position inside the domain run that is followed by at least two letters. -/
def findDotSplit (D : List Char) : Nat → Option Nat
  | 0 => none
  | Nat.succ k =>
    if D.get? (k + 1) = some '.' ∧
       2 ≤ ((D.drop (k + 2)).takeWhile Char.isAlpha).length then
      some (k + 1)
    else findDotSplit D k

/-- One match attempt of the email pattern at the head of the input.
Returns the matched characters and the remaining input on success. -/
def tryEmailAt (cs : List Char) : Option (List Char × List Char) :=
  let loc := cs.takeWhile emailLocalChar
  if loc.isEmpty then none
  else
    match cs.drop loc.length with
    | '@' :: r2 =>
      let D := r2.takeWhile emailDomainChar
      let rest0 := r2.drop D.length
      match findDotSplit D (D.length - 1) with
      | none => none
      | some k =>
        let letters := (D.drop (k + 1)).takeWhile Char.isAlpha
        some (loc ++ '@' :: (D.take (k + 1) ++ letters),
              (D.drop (k + 1 + letters.length)) ++ rest0)
    | _ => none

/-- Global scan (the g flag): after a match continue at its end, after a
failed attempt advance one character.  Fuel bounds the recursion; it is
instantiated with the input length, which suffices because every step
consumes at least one character. -/
def scanEmails : Nat → List Char → List (List Char)
  | 0, _ => []
  | _, [] => []
  | Nat.succ fuel, c :: cs =>
    match tryEmailAt (c :: cs) with
    | some (m, rest) => m :: scanEmails fuel rest
    | none => scanEmails fuel cs

/-- Order-preserving deduplication, as Array.from(new Set(matches)). -/
def dedupKeepFirst (seen : List String) : List String → List String
  | [] => []
  | x :: xs =>
    if x ∈ seen then dedupKeepFirst seen xs
    else x :: dedupKeepFirst (x :: seen) xs

/-- Placeholder test of the source filter:
e.toLowerCase().includes("example."). -/
def isPlaceholder (e : String) : Bool :=
  hasSubstr "example.".data (lowerStr e).data

/-- Embedding of extractEmailFromHtml (identical in server.js, part_000 and
part_001): match all email-shaped substrings, return null when there is no
match, otherwise deduplicate, drop placeholder addresses, and return the
first survivor (uniq[0] || null, where a falsy head also yields null). -/
def extractEmailFromHtml (html : String) : Option String :=
  let ms := (scanEmails html.data.length html.data).map String.mk
  if ms.isEmpty then none
  else
    match ((dedupKeepFirst [] ms).filter (fun e => !isPlaceholder e)).head? with
    | none => none
    | some s => if s = "" then none else some s

/- ### Website normalisation: the /https?:\/\/[^\s"]+/ first match -/

/-- Character class [^\s"]+ of the website pattern. -/
def urlTailChar (c : Char) : Bool :=
  !(isJsSpace c || c = '"')

/-- One attempt of the website pattern at the head of the input: the literal
http, an optional s, the literal ://, then at least one character outside
white space and double quote, taken greedily. -/
def urlAt (cs : List Char) : Option (List Char) :=
  if "https://".data.isPrefixOf cs then
    let tail := (cs.drop 8).takeWhile urlTailChar
    if tail.isEmpty then none else some ("https://".data ++ tail)
  else if "http://".data.isPrefixOf cs then
    let tail := (cs.drop 7).takeWhile urlTailChar
    if tail.isEmpty then none else some ("http://".data ++ tail)
  else none

/-- First match of the website pattern: leftmost position at which an
attempt succeeds. -/
def firstUrlFrom : List Char → Option (List Char)
  | [] => none
  | c :: cs =>
    match urlAt (c :: cs) with
    | some m => some m
    | none => firstUrlFrom cs

/-- Embedding of the website post-processing shared by all four handlers:
if the captured href is truthy and includes "http", replace it by the first
match of the website pattern when one exists, else keep it unchanged. -/
def extractWebsite (href : String) : String :=
  if href ≠ "" ∧ hasSubstr "http".data href.data then
    match firstUrlFrom href.data with
    | some m => String.mk m
    | none => href
  else href

/- ### Review-count parsing from the aria-label of the reviews control -/

/-- Character class [\d,\.] of the review-count pattern. -/
def revChar (c : Char) : Bool :=
  c.isDigit || c = ',' || c = '.'

/-- First match of a one-character-class plus pattern: the leftmost maximal
nonempty run of characters of the class. -/
def firstRun (p : Char → Bool) : List Char → Option (List Char)
  | [] => none
  | c :: cs => if p c then some (c :: cs.takeWhile p) else firstRun p cs

/-- parseInt(s, 10) restricted to the strings that reach it here: after the
separator strip the argument consists of decimal digits only, so the result
is their value, or NaN (modelled as none) when the string is empty. -/
def parseIntDigits (s : List Char) : Option Nat :=
  if s.isEmpty then none
  else some (s.foldl (fun acc c => acc * 10 + (c.toNat - '0'.toNat)) 0)

/-- Embedding of the V1 (and part_000/part_001) review-count field of a
pushed record: 0 when the reviews control is absent or its label has no
digits-or-separators run; otherwise parseInt of the run with comma, dot and
white space stripped; the push site coerces a NaN parse back to 0 via
(place.reviews || 0). -/
def reviewsV1core (ariaLabel : Option String) : Nat :=
  match ariaLabel with
  | none => 0
  | some lab =>
    match firstRun revChar lab.data with
    | none => 0
    | some run =>
      match parseIntDigits
          (run.filter (fun c => !(c = ',' || c = '.' || isJsSpace c))) with
      | none => 0
      | some v => v

/-- The V1 review-count field as the JavaScript number pushed into the
record: a cast of the natural number computed above. -/
def reviewsV1 (ariaLabel : Option String) : Int :=
  (reviewsV1core ariaLabel : Int)

/-- Embedding of the V2 review-count field: the same first run with comma
and dot stripped, kept as a string; the empty string when the control is
absent or the label has no run. -/
def reviewsV2 (ariaLabel : Option String) : String :=
  match ariaLabel with
  | none => ""
  | some lab =>
    match firstRun revChar lab.data with
    | none => ""
    | some run => String.mk (run.filter (fun c => !(c = ',' || c = '.')))

/- ### The effective result limit -/

/-- The max field of the request body as the handlers see it: absent
(destructuring default 20), a number, or a value whose Number conversion is
NaN (for example a non-numeric string).  Fractional numbers do not occur in
any claim and are not modelled. -/
inductive MaxParam where
  | absent
  | num (n : Int)
  | nan
deriving DecidableEq

/-- Number(max) || 20: the default 20 for an absent field, for NaN and for
zero (both falsy), otherwise the numeric value itself. -/
def jsNumberOr20 : MaxParam → Int
  | MaxParam.absent => 20
  | MaxParam.nan => 20
  | MaxParam.num n => if n = 0 then 20 else n

/-- Effective limit of the first server.js handler (and of part_000 and
part_001): Math.min(Number(max) || 20, 100). -/
def limitV1 (m : MaxParam) : Int :=
  min (jsNumberOr20 m) 100

/-- Effective limit of the second server.js handler:
Math.min(Number(max) || 20, 50). -/
def limitV2 (m : MaxParam) : Int :=
  min (jsNumberOr20 m) 50

/- ### Feed loaders

The loaders only scroll and wait; they do not produce data.  They are
embedded as functions from the sequence of card counts observed at each
poll (poll i = the count measured on iteration i) to the number of polls
performed, which makes boundedness and the stall exit provable. -/

/-- Embedding of loadEnough of the first server.js handler: up to 40
iterations; each iteration polls the anchor count, exits when the target is
reached, otherwise scrolls, then increments a stagnation counter when the
count equals the previously seen one (resetting it otherwise) and exits when
the counter reaches 6.  Arguments after the target: iteration index, seen,
stagnant, remaining fuel. -/
def loadV1 (poll : Nat → Nat) (target : Nat) : Nat → Nat → Nat → Nat → Nat
  | _, _, _, 0 => 0
  | i, seen, stagnant, Nat.succ fuel =>
    let n := poll i
    if target ≤ n then 1
    else
      let stagnant2 := if n = seen then stagnant + 1 else 0
      if 6 ≤ stagnant2 then 1
      else 1 + loadV1 poll target (i + 1) n stagnant2 fuel

/-- Number of polls performed by the V1 loader (i = 0, seen = 0,
stagnant = 0, 40 iterations). -/
def loadEnoughV1 (poll : Nat → Nat) (target : Nat) : Nat :=
  loadV1 poll target 0 0 0 40

/-- Embedding of the stall-free loaders of the second server.js handler
(15 tries) and of part_000/part_001 (20 tries): poll, exit when the target
is reached, otherwise scroll and re-poll until the tries are exhausted. -/
def loadTries (poll : Nat → Nat) (target : Nat) : Nat → Nat → Nat
  | _, 0 => 0
  | i, Nat.succ fuel =>
    if target ≤ poll i then 1 else 1 + loadTries poll target (i + 1) fuel

/-- Number of polls performed by the V2 loader (15 tries). -/
def loadEnoughV2 (poll : Nat → Nat) (target : Nat) : Nat :=
  loadTries poll target 0 15

/-- Number of polls performed by the part_000/part_001 loader (20 tries). -/
def loadEnoughP0 (poll : Nat → Nat) (target : Nat) : Nat :=
  loadTries poll target 0 20

/- ### Detail panes, records and the per-item loops -/

/-- The DOM state of one detail pane at extraction time, restricted to what
the extractors read: the heading text, the address and phone button texts,
the href of the authority anchor (empty when absent), the rating text, the
aria-label of the reviews control when present, and the description text. -/
structure Pane where
  name : String
  address : String
  phone : String
  websiteHref : String
  rating : String
  reviewsLabel : Option String
  description : String
deriving DecidableEq

/-- A record as pushed by the first server.js handler (and, with the email
field filled by the website crawl, by part_000): every field defaulted to
the empty string, reviews an integer defaulted to 0. -/
structure RecordV1 where
  name : String
  email : String
  mobile : String
  address : String
  website : String
  description : String
  rating : String
  reviews : Int
deriving DecidableEq

/-- A record as pushed by the second server.js handler: the place object is
pushed directly, with no email, no description, and reviews a string. -/
structure RecordV2 where
  name : String
  address : String
  phone : String
  website : String
  rating : String
  reviews : String
deriving DecidableEq

/-- Outcome of visiting the i-th feed entry: the element is gone at click
time, the heading never appears within its wait, or a rendered pane. -/
inductive Entry where
  | noElement
  | noHeading
  | pane (p : Pane)
deriving DecidableEq

/-- Record assembly of the V1 push site: name (already known nonempty at
this point), empty email, phone as mobile, normalised website,
rating kept as a string, reviews parsed to an integer. -/
def mkRecordV1 (p : Pane) : RecordV1 :=
  { name := p.name
    email := ""
    mobile := p.phone
    address := p.address
    website := extractWebsite p.websiteHref
    description := p.description
    rating := p.rating
    reviews := reviewsV1 p.reviewsLabel }

/-- Record assembly of the V2 push site: the place object as returned by
the page evaluation, reviews kept as a string. -/
def mkRecordV2 (p : Pane) : RecordV2 :=
  { name := p.name
    address := p.address
    phone := p.phone
    website := extractWebsite p.websiteHref
    rating := p.rating
    reviews := reviewsV2 p.reviewsLabel }

/-- Embedding of the V1 scrape loop over the taken entries.  A missing
element or a heading timeout skips the entry (continue); an empty name or a
name equal to the last accepted one skips the entry; otherwise the record is
pushed and the lastName cursor advances. -/
def scrapeItemsV1 : List Entry → Option String → List RecordV1
  | [], _ => []
  | Entry.noElement :: rest, last => scrapeItemsV1 rest last
  | Entry.noHeading :: rest, last => scrapeItemsV1 rest last
  | Entry.pane p :: rest, last =>
    if p.name = "" ∨ some p.name = last then scrapeItemsV1 rest last
    else mkRecordV1 p :: scrapeItemsV1 rest (some p.name)

/-- Embedding of the V2 scrape loop over the taken entries.  The click and
the heading wait are not wrapped in try/catch there, so a missing element or
a heading timeout raises, aborting the whole loop (the outer catch then
answers success false); otherwise every pane is pushed with no duplicate
suppression. -/
def scrapeItemsV2 : List Entry → Except String (List RecordV2)
  | [] => Except.ok []
  | Entry.noElement :: _ => Except.error "Node is detached from document"
  | Entry.noHeading :: _ =>
    Except.error "waiting for selector h1 failed: timeout 15000ms exceeded"
  | Entry.pane p :: rest =>
    match scrapeItemsV2 rest with
    | Except.ok rs => Except.ok (mkRecordV2 p :: rs)
    | Except.error msg => Except.error msg

/- ### The request handlers -/

/-- The HTTP answer of a scrape request: res.json with success true and a
results array, res.json with success false and a message (both HTTP 200), or
an error that escapes the handler and reaches the framework default handler
(an HTTP 5xx). -/
inductive ScrapeResponse (ρ : Type) where
  | ok (results : List ρ)
  | fail (message : String)
  | serverError (message : String)
deriving DecidableEq

/-- Environment of one scrape request: whether puppeteer.launch throws (and
its message), whether page.goto succeeds, whether the results feed selector
appears, and the feed entries as they resolve when visited. -/
structure Env where
  launchError : Option String
  gotoOk : Bool
  feedAppears : Bool
  entries : List Entry
deriving DecidableEq

/-- Trace of one handler run: the response together with whether a browser
was launched and whether browser.close was called before the handler
finished. -/
structure Trace (ρ : Type) where
  resp : ScrapeResponse ρ
  launched : Bool
  closed : Bool
deriving DecidableEq

/-- Math.min(count, limit) followed by the zero-or-more loop iterations:
the number of entries actually visited, as a natural number. -/
def takeCount (available : Nat) (limit : Int) : Nat :=
  (min (available : Int) limit).toNat

/-- Embedding of the first server.js scrape handler.  The query guard
answers before any launch.  The try block has no catch and no finally, so a
launch, navigation or feed-wait failure escapes to the framework (HTTP 5xx)
with the browser left open; browser.close is reached only on the success
path, after res.json. -/
def scrapeHandlerV1 (query : String) (m : MaxParam) (env : Env) :
    Trace RecordV1 :=
  if query = "" then
    { resp := ScrapeResponse.fail "query is required"
      launched := false, closed := false }
  else
    match env.launchError with
    | some msg =>
      { resp := ScrapeResponse.serverError msg
        launched := false, closed := false }
    | none =>
      if !env.gotoOk then
        { resp := ScrapeResponse.serverError "Navigation timeout exceeded"
          launched := true, closed := false }
      else if !env.feedAppears then
        { resp := ScrapeResponse.serverError
            "waiting for selector div failed: timeout 60000ms exceeded"
          launched := true, closed := false }
      else
        let t := takeCount env.entries.length (limitV1 m)
        { resp := ScrapeResponse.ok (scrapeItemsV1 (env.entries.take t) none)
          launched := true, closed := true }

/-- Embedding of the second server.js scrape handler (part_000 and part_001
share this catch/finally shape).  Every failure after the query guard is
caught and answered as success false, and the finally block closes the
browser whenever one was launched. -/
def scrapeHandlerV2 (query : String) (m : MaxParam) (env : Env) :
    Trace RecordV2 :=
  if query = "" then
    { resp := ScrapeResponse.fail "query is required"
      launched := false, closed := false }
  else
    match env.launchError with
    | some msg =>
      { resp := ScrapeResponse.fail msg
        launched := false, closed := false }
    | none =>
      if !env.gotoOk then
        { resp := ScrapeResponse.fail "Navigation timeout exceeded"
          launched := true, closed := true }
      else if !env.feedAppears then
        { resp := ScrapeResponse.fail
            "waiting for selector div failed: timeout 60000ms exceeded"
          launched := true, closed := true }
      else
        let t := takeCount env.entries.length (limitV2 m)
        match scrapeItemsV2 (env.entries.take t) with
        | Except.error msg =>
          { resp := ScrapeResponse.fail msg
            launched := true, closed := true }
        | Except.ok data =>
          { resp := ScrapeResponse.ok data
            launched := true, closed := true }

/-- Length of the results array of a response; 0 when there is none. -/
def respLength {ρ : Type} : ScrapeResponse ρ → Nat
  | ScrapeResponse.ok rs => rs.length
  | ScrapeResponse.fail _ => 0
  | ScrapeResponse.serverError _ => 0

/-- The results array of a response; empty when there is none. -/
def respRecords {ρ : Type} : ScrapeResponse ρ → List ρ
  | ScrapeResponse.ok rs => rs
  | ScrapeResponse.fail _ => []
  | ScrapeResponse.serverError _ => []

/-- A bare detail pane with only a heading text, used by the concrete
evaluations below. -/
def paneNamed (s : String) : Pane :=
  { name := s, address := "", phone := "", websiteHref := "", rating := ""
    reviewsLabel := none, description := "" }

/- ### Helper lemmas -/

lemma loadV1_succ (poll : Nat → Nat) (target i seen st fuel : Nat) :
    loadV1 poll target i seen st (fuel + 1) =
      if target ≤ poll i then 1
      else if 6 ≤ (if poll i = seen then st + 1 else 0) then 1
      else 1 + loadV1 poll target (i + 1) (poll i)
          (if poll i = seen then st + 1 else 0) fuel := rfl

lemma loadV1_le_fuel (poll : Nat → Nat) (target : Nat) :
    ∀ (fuel i seen stagnant : Nat),
      loadV1 poll target i seen stagnant fuel ≤ fuel := by
  intro fuel
  induction fuel with
  | zero => intro i seen st; simp [loadV1]
  | succ f ih =>
    intro i seen st
    rw [loadV1_succ]
    have h1 := ih (i + 1) (poll i) (st + 1)
    have h2 := ih (i + 1) (poll i) 0
    repeat' split
    all_goals omega

lemma loadTries_le_fuel (poll : Nat → Nat) (target : Nat) :
    ∀ (fuel i : Nat), loadTries poll target i fuel ≤ fuel := by
  intro fuel
  induction fuel with
  | zero => intro i; simp [loadTries]
  | succ f ih =>
    intro i
    simp only [loadTries]
    split
    · omega
    · have h := ih (i + 1)
      omega

lemma loadV1_const_succ (c target i seen st fuel : Nat) :
    loadV1 (fun _ => c) target i seen st (fuel + 1) =
      if target ≤ c then 1
      else if 6 ≤ (if c = seen then st + 1 else 0) then 1
      else 1 + loadV1 (fun _ => c) target (i + 1) c
          (if c = seen then st + 1 else 0) fuel := rfl

lemma loadV1_stall (c target : Nat) (hc : c < target) :
    ∀ (k s i fuel : Nat), s + k = 5 → k + 1 ≤ fuel →
      loadV1 (fun _ => c) target i c s fuel = k + 1 := by
  intro k
  induction k with
  | zero =>
    intro s i fuel hs hf
    obtain ⟨f, rfl⟩ : ∃ f, fuel = f + 1 := ⟨fuel - 1, by omega⟩
    rw [loadV1_const_succ]
    rw [if_neg (Nat.not_le.mpr hc), if_pos (show c = c from rfl),
      if_pos (show 6 ≤ s + 1 by omega)]
  | succ k ih =>
    intro s i fuel hs hf
    obtain ⟨f, rfl⟩ : ∃ f, fuel = f + 1 := ⟨fuel - 1, by omega⟩
    rw [loadV1_const_succ]
    rw [if_neg (Nat.not_le.mpr hc), if_pos (show c = c from rfl),
      if_neg (show ¬ 6 ≤ s + 1 by omega)]
    rw [ih (s + 1) (i + 1) f (by omega) (by omega)]
    omega

lemma loadEnoughV1_const (c target : Nat) (hc : c < target) :
    loadEnoughV1 (fun _ => c) target = if c = 0 then 6 else 7 := by
  unfold loadEnoughV1
  rw [show (40 : Nat) = 39 + 1 from rfl]
  rw [loadV1_const_succ]
  rw [if_neg (Nat.not_le.mpr hc)]
  by_cases h0 : c = 0
  · rw [if_pos h0, if_pos h0,
      if_neg (show ¬ (6 : Nat) ≤ 0 + 1 by omega)]
    rw [loadV1_stall c target hc 4 (0 + 1) (0 + 1) 39 (by omega) (by omega)]
  · rw [if_neg h0, if_neg h0,
      if_neg (show ¬ (6 : Nat) ≤ 0 by omega)]
    rw [loadV1_stall c target hc 5 0 (0 + 1) 39 (by omega) (by omega)]

lemma scrapeItemsV1_length_le :
    ∀ (es : List Entry) (last : Option String),
      (scrapeItemsV1 es last).length ≤ es.length := by
  intro es
  induction es with
  | nil => intro last; simp [scrapeItemsV1]
  | cons e rest ih =>
    intro last
    cases e with
    | noElement =>
      simpa [scrapeItemsV1] using Nat.le_succ_of_le (ih last)
    | noHeading =>
      simpa [scrapeItemsV1] using Nat.le_succ_of_le (ih last)
    | pane p =>
      simp only [scrapeItemsV1]
      split
      · simpa using Nat.le_succ_of_le (ih last)
      · simpa using ih (some p.name)

lemma scrapeItemsV2_length_le :
    ∀ (es : List Entry) (rs : List RecordV2),
      scrapeItemsV2 es = Except.ok rs → rs.length ≤ es.length := by
  intro es
  induction es with
  | nil =>
    intro rs h
    simp only [scrapeItemsV2] at h
    cases h
    simp
  | cons e rest ih =>
    intro rs h
    cases e with
    | noElement => simp [scrapeItemsV2] at h
    | noHeading => simp [scrapeItemsV2] at h
    | pane p =>
      simp only [scrapeItemsV2] at h
      cases hrec : scrapeItemsV2 rest with
      | ok rs2 =>
        rw [hrec] at h
        cases h
        have := ih rs2 hrec
        simp
        omega
      | error msg => rw [hrec] at h; cases h

lemma takeCount_le_toNat (a : Nat) (l : Int) : takeCount a l ≤ l.toNat := by
  unfold takeCount
  omega

lemma takeCount_le_avail (a : Nat) (l : Int) : takeCount a l ≤ a := by
  unfold takeCount
  omega

lemma scrapeHandlerV1_length (q : String) (m : MaxParam) (env : Env) :
    respLength (scrapeHandlerV1 q m env).resp ≤ (limitV1 m).toNat ∧
    respLength (scrapeHandlerV1 q m env).resp ≤ env.entries.length := by
  unfold scrapeHandlerV1
  split
  · simp [respLength]
  · split
    · simp [respLength]
    · split
      · simp [respLength]
      · split
        · simp [respLength]
        · simp only [respLength]
          have h1 := scrapeItemsV1_length_le
            (env.entries.take (takeCount env.entries.length (limitV1 m))) none
          have h2 : (env.entries.take
              (takeCount env.entries.length (limitV1 m))).length ≤
              takeCount env.entries.length (limitV1 m) := by
            simp
          have h3 := takeCount_le_toNat env.entries.length (limitV1 m)
          have h4 := takeCount_le_avail env.entries.length (limitV1 m)
          exact ⟨by omega, by omega⟩

lemma scrapeHandlerV2_length (q : String) (m : MaxParam) (env : Env) :
    respLength (scrapeHandlerV2 q m env).resp ≤ (limitV2 m).toNat ∧
    respLength (scrapeHandlerV2 q m env).resp ≤ env.entries.length := by
  simp only [scrapeHandlerV2]
  split
  · simp [respLength]
  · split
    · simp [respLength]
    · split
      · simp [respLength]
      · split
        · simp [respLength]
        · split
          · simp [respLength]
          · rename_i data hdata
            simp only [respLength]
            have h1 := scrapeItemsV2_length_le
              (env.entries.take (takeCount env.entries.length (limitV2 m)))
              data hdata
            have h2 : (env.entries.take
                (takeCount env.entries.length (limitV2 m))).length ≤
                takeCount env.entries.length (limitV2 m) := by
              simp
            have h3 := takeCount_le_toNat env.entries.length (limitV2 m)
            have h4 := takeCount_le_avail env.entries.length (limitV2 m)
            exact ⟨by omega, by omega⟩

lemma scrapeItemsV1_names (es : List Entry) :
    ∀ (last : Option String),
      ((scrapeItemsV1 es last).all (fun r => r.name != "")) = true ∧
      List.Chain' (fun a b : RecordV1 => a.name ≠ b.name)
        (scrapeItemsV1 es last) ∧
      ∀ r, (scrapeItemsV1 es last).head? = some r → some r.name ≠ last := by
  induction es with
  | nil =>
    intro last
    refine ⟨rfl, List.chain'_nil, ?_⟩
    intro r h
    simp [scrapeItemsV1] at h
  | cons e rest ih =>
    intro last
    cases e with
    | noElement => simpa only [scrapeItemsV1] using ih last
    | noHeading => simpa only [scrapeItemsV1] using ih last
    | pane p =>
      by_cases h : p.name = "" ∨ some p.name = last
      · simp only [scrapeItemsV1, if_pos h]
        exact ih last
      · simp only [scrapeItemsV1, if_neg h]
        push_neg at h
        obtain ⟨hall, hchain, hhead⟩ := ih (some p.name)
        refine ⟨?_, ?_, ?_⟩
        · simp only [List.all_cons, hall, Bool.and_true]
          simpa [mkRecordV1] using h.1
        · rw [List.chain'_cons']
          refine ⟨?_, hchain⟩
          intro b hb
          have hb2 := hhead b (Option.mem_def.mp hb)
          intro hcon
          apply hb2
          simp only [mkRecordV1] at hcon
          rw [hcon]
        · intro r hr
          simp only [List.head?_cons, Option.some.injEq] at hr
          subst hr
          simpa [mkRecordV1] using h.2

/- ### Claim theorems -/

/-- C1, counterexample: the claim says the effective result limit is the
request max clamped to [1, 50] with a hard ceiling of 50; in the first
server.js handler the ceiling is 100, so a request with max = 60 gets the
effective limit 60, outside [1, 50]. -/
theorem c1_limit_counterexample :
    limitV1 (MaxParam.num 60) = 60 ∧ ¬ limitV1 (MaxParam.num 60) ≤ 50 := by
  decide

/-- C1, amended: the effective limit is Number(max), with default 20 for an
absent, NaN or zero max, capped at 100 in the first server.js handler and at
50 in the second (part_000 and part_001 also cap at 100); no lower clamp to
1 is applied (a negative max passes through, giving an empty result); the
returned results array length never exceeds the effective limit. -/
theorem c1_limit_and_length :
    (∀ q m env,
      respLength (scrapeHandlerV1 q m env).resp ≤ (limitV1 m).toNat) ∧
    (∀ q m env,
      respLength (scrapeHandlerV2 q m env).resp ≤ (limitV2 m).toNat) ∧
    limitV1 (MaxParam.num 60) = 60 ∧ limitV2 (MaxParam.num 60) = 50 ∧
    limitV1 (MaxParam.num (-5)) = -5 := by
  refine ⟨?_, ?_, by decide, by decide, by decide⟩
  · intro q m env
    exact (scrapeHandlerV1_length q m env).1
  · intro q m env
    exact (scrapeHandlerV2_length q m env).1

/-- C2, code evaluation at the failing input: with a valid query and a
scrape-time failure (Chromium launch throws), the first server.js handler,
whose try block has no catch and no finally, lets the error escape to the
framework default handler (an HTTP 5xx), contradicting the claim; the
second handler (like part_000 and part_001) catches it and answers success
false with the message. -/
theorem c2_unhandled_error_eval :
    (scrapeHandlerV1 "coffee" (MaxParam.num 5)
        ⟨some "Failed to launch the browser process", true, true, []⟩).resp =
      ScrapeResponse.serverError "Failed to launch the browser process" ∧
    (scrapeHandlerV2 "coffee" (MaxParam.num 5)
        ⟨some "Failed to launch the browser process", true, true, []⟩).resp =
      ScrapeResponse.fail "Failed to launch the browser process" := by
  decide

/-- C3, counterexample: the second server.js handler (and part_000 and
part_001) performs no duplicate suppression, so a feed whose first two
entries resolve to panes with the same non-empty name returns two adjacent
records with that name. -/
theorem c3_adjacent_duplicate_counterexample :
    (scrapeHandlerV2 "coffee" (MaxParam.num 5)
        ⟨none, true, true,
          [Entry.pane (paneNamed "Acme Cafe"),
           Entry.pane (paneNamed "Acme Cafe")]⟩).resp =
      ScrapeResponse.ok [mkRecordV2 (paneNamed "Acme Cafe"),
                         mkRecordV2 (paneNamed "Acme Cafe")] ∧
    (mkRecordV2 (paneNamed "Acme Cafe")).name = "Acme Cafe" ∧
    "Acme Cafe" ≠ "" := by
  decide

/-- C3, amended: only the first server.js handler carries the lastName
cursor; in its returned results array no two consecutive records share a
name and every record name is non-empty; the other three handler variants
push records with no duplicate suppression. -/
theorem c3_dedup_v1 :
    ∀ q m env,
      List.Chain' (fun a b : RecordV1 => a.name ≠ b.name)
        (respRecords (scrapeHandlerV1 q m env).resp) ∧
      (respRecords (scrapeHandlerV1 q m env).resp).all
        (fun r => r.name != "") = true := by
  intro q m env
  unfold scrapeHandlerV1
  split
  · exact ⟨List.chain'_nil, rfl⟩
  · split
    · exact ⟨List.chain'_nil, rfl⟩
    · split
      · exact ⟨List.chain'_nil, rfl⟩
      · split
        · exact ⟨List.chain'_nil, rfl⟩
        · obtain ⟨hall, hchain, _⟩ := scrapeItemsV1_names
            (env.entries.take (takeCount env.entries.length (limitV1 m))) none
          exact ⟨hchain, hall⟩

/-- C4, code evaluation at the failing input: in the first server.js
handler browser.close is reached only on the success path inside the try
block, so when the feed selector never appears after a successful launch
the handler finishes with the browser still open, contradicting the claim;
the second handler (like part_000 and part_001) closes in finally whenever
a browser was launched. -/
theorem c4_browser_leak_eval :
    (scrapeHandlerV1 "coffee" (MaxParam.num 5)
        ⟨none, true, false, []⟩).launched = true ∧
    (scrapeHandlerV1 "coffee" (MaxParam.num 5)
        ⟨none, true, false, []⟩).closed = false ∧
    (∀ q m env, ((scrapeHandlerV2 q m env).closed
        || !(scrapeHandlerV2 q m env).launched) = true) := by
  refine ⟨by decide, by decide, ?_⟩
  intro q m env
  simp only [scrapeHandlerV2]
  repeat' split
  all_goals rfl

/-- C5, counterexample: on the wrapper href the first match of the website
pattern starts at position 0 and extends greedily to the end (no white
space or double quote occurs), so the extractor returns the whole wrapper
href, not the embedded target, contradicting the claim. -/
theorem c5_wrapper_counterexample :
    extractWebsite "https://track.example/redirect?u=https://acme.test/" =
      "https://track.example/redirect?u=https://acme.test/" ∧
    "https://track.example/redirect?u=https://acme.test/" ≠
      "https://acme.test/" := by
  decide

/-- C5, amended: the extracted website equals the first match of the
pattern https?:// followed by a greedy run of non-white-space non-quote
characters; for any href that itself begins with https:// and contains no
white space or double quote, that match is the entire href, so a tracking
wrapper URL is returned unchanged rather than the embedded target. -/
theorem c5_first_match_amended :
    ∀ (tail : List Char), tail ≠ [] → (∀ c ∈ tail, urlTailChar c = true) →
      extractWebsite (String.mk ("https://".data ++ tail)) =
        String.mk ("https://".data ++ tail) := by
  intro tail hne hall
  unfold extractWebsite
  rw [if_pos]
  · have hpre : "https://".data.isPrefixOf ("https://".data ++ tail) = true := by
      rw [List.isPrefixOf_iff_prefix]
      exact ⟨tail, rfl⟩
    have hdrop : ("https://".data ++ tail).drop 8 = tail := by
      have h8 : "https://".data.length = 8 := by decide
      rw [← h8, List.drop_left]
    have htake : tail.takeWhile urlTailChar = tail :=
      List.takeWhile_eq_self_iff.mpr hall
    show (match firstUrlFrom (String.mk ("https://".data ++ tail)).data with
        | some m => String.mk m
        | none => String.mk ("https://".data ++ tail)) = _
    have hfu : firstUrlFrom (String.mk ("https://".data ++ tail)).data =
        some ("https://".data ++ tail) := by
      show firstUrlFrom ("https://".data ++ tail) = _
      have hcons : "https://".data ++ tail =
          'h' :: ("ttps://".data ++ tail) := rfl
      rw [hcons, firstUrlFrom, ← hcons]
      unfold urlAt
      rw [if_pos hpre, hdrop, htake]
      rw [if_neg (by simpa [List.isEmpty_iff] using hne)]
    rw [hfu]
  · constructor
    · intro hcon
      have hdata := congrArg String.data hcon
      simp at hdata
    · show hasSubstr "http".data (String.mk ("https://".data ++ tail)).data = true
      show hasSubstr "http".data ("https://".data ++ tail) = true
      have hcons : "https://".data ++ tail =
          'h' :: ("ttps://".data ++ tail) := rfl
      rw [hcons, hasSubstr]
      have : "http".data.isPrefixOf ('h' :: ("ttps://".data ++ tail)) = true := by
        rw [List.isPrefixOf_iff_prefix]

        exact ⟨"s://".data ++ tail, rfl⟩
      rw [this]
      rfl

/-- C5, witness for the amended theorem at the wrapper href of the claim. -/
theorem c5_first_match_witness :
    extractWebsite (String.mk ("https://".data ++
        "track.example/redirect?u=https://acme.test/".data)) =
      String.mk ("https://".data ++
        "track.example/redirect?u=https://acme.test/".data) :=
  c5_first_match_amended "track.example/redirect?u=https://acme.test/".data
    (by decide) (by decide)

/-- C6, counterexample: in the second server.js handler the reviews field
of a pushed record is a string, not a parsed integer: the label 1,234
reviews yields the string 1234 and an absent label yields the empty string
rather than 0. -/
theorem c6_reviews_string_counterexample :
    reviewsV2 (some "1,234 reviews") = "1234" ∧ reviewsV2 none = "" ∧
    (mkRecordV2 (paneNamed "Acme Cafe")).reviews = "" := by
  decide

/-- C6, amended: the first server.js handler (and part_000 and part_001)
parses reviews to a non-negative integer, 1234 from the label 1,234 reviews
and 0 when the control is absent; the second handler keeps reviews as a
digit string, with the empty string when the control is absent. -/
theorem c6_reviews_amended :
    reviewsV1 (some "1,234 reviews") = 1234 ∧ reviewsV1 none = 0 ∧
    (∀ lab, 0 ≤ reviewsV1 lab) ∧
    reviewsV2 (some "1,234 reviews") = "1234" ∧ reviewsV2 none = "" := by
  refine ⟨by decide, by decide, ?_, by decide, by decide⟩
  intro lab
  show 0 ≤ (reviewsV1core lab : Int)
  exact Int.natCast_nonneg _

/-- C7: the email extractor never returns an address containing the
fragment example. (after ASCII lower-casing), and on HTML containing both
info@example.com and sales@realbiz.com it returns sales@realbiz.com, the
first non-placeholder match in document order. -/
theorem c7_no_placeholder_email :
    (∀ (html e : String), extractEmailFromHtml html = some e →
      isPlaceholder e = false) ∧
    extractEmailFromHtml "Contact: info@example.com or sales@realbiz.com" =
      some "sales@realbiz.com" := by
  constructor
  · intro html e h
    simp only [extractEmailFromHtml] at h
    by_cases hemp :
        ((scanEmails html.data.length html.data).map String.mk).isEmpty
    · rw [if_pos hemp] at h
      cases h
    · rw [if_neg hemp] at h
      rcases hh : ((dedupKeepFirst []
            ((scanEmails html.data.length html.data).map String.mk)).filter
          (fun e => !isPlaceholder e)).head? with _ | s
      · rw [hh] at h
        cases h
      · rw [hh] at h
        have h2 : (if s = "" then none else some s) = some e := h
        by_cases hs : s = ""
        · rw [if_pos hs] at h2
          cases h2
        · rw [if_neg hs] at h2
          injection h2 with hse
          subst hse
          have hmem : s ∈ (dedupKeepFirst []
              ((scanEmails html.data.length html.data).map String.mk)).filter
              (fun e => !isPlaceholder e) :=
            List.mem_of_mem_head? (Option.mem_def.mpr hh)
          have hpred := (List.mem_filter.mp hmem).2
          simpa using hpred
  · decide

/-- C7, witness: the amended-free general part applied at the concrete HTML
of the claim, with the hypothesis discharged by the concrete part. -/
theorem c7_no_placeholder_email_witness :
    isPlaceholder "sales@realbiz.com" = false :=
  c7_no_placeholder_email.1
    "Contact: info@example.com or sales@realbiz.com"
    "sales@realbiz.com" c7_no_placeholder_email.2

/-- C8: every loader is bounded (40 polls for the first server.js loader,
15 for the second, 20 for part_000/part_001); when the observed count stays
constant below the target, the first loader exits via the stagnation
counter after at most 7 polls instead of exhausting its bound, with no
error; and the handler returns at most as many records as the feed has
entries, hence fewer than max when the feed is exhausted early. -/
theorem c8_loader_termination :
    (∀ poll target, loadEnoughV1 poll target ≤ 40) ∧
    (∀ (c target : Nat), c < target →
      loadEnoughV1 (fun _ => c) target = if c = 0 then 6 else 7) ∧
    (∀ poll target, loadEnoughV2 poll target ≤ 15) ∧
    (∀ poll target, loadEnoughP0 poll target ≤ 20) ∧
    (∀ q m env,
      respLength (scrapeHandlerV1 q m env).resp ≤ env.entries.length) := by
  refine ⟨?_, ?_, ?_, ?_, ?_⟩
  · intro poll target
    exact loadV1_le_fuel poll target 40 0 0 0
  · intro c target h
    exact loadEnoughV1_const c target h
  · intro poll target
    exact loadTries_le_fuel poll target 15 0
  · intro poll target
    exact loadTries_le_fuel poll target 20 0
  · intro q m env
    exact (scrapeHandlerV1_length q m env).2

/-- C8, witness: a feed stuck at 2 of 5 requested cards makes the first
loader exit after exactly 7 polls. -/
theorem c8_loader_termination_witness :
    loadEnoughV1 (fun _ => 2) 5 = 7 := by
  have h := c8_loader_termination.2.1 2 5 (by decide)
  simpa using h

/-- C9: a request whose body lacks a query is answered with success false
and the message query is required, before any browser is launched, in both
server.js handlers (part_000 and part_001 have the identical guard). -/
theorem c9_query_guard :
    ∀ m env,
      scrapeHandlerV1 "" m env =
        ⟨ScrapeResponse.fail "query is required", false, false⟩ ∧
      scrapeHandlerV2 "" m env =
        ⟨ScrapeResponse.fail "query is required", false, false⟩ := by
  intro m env
  exact ⟨rfl, rfl⟩

/-- C10: when max is absent, NaN (for example a non-numeric string) or
zero, the effective limit defaults to 20 in every handler variant, and the
returned results array then has at most 20 records. -/
theorem c10_default_limit_twenty :
    limitV1 MaxParam.absent = 20 ∧ limitV1 MaxParam.nan = 20 ∧
    limitV1 (MaxParam.num 0) = 20 ∧ limitV2 MaxParam.absent = 20 ∧
    limitV2 MaxParam.nan = 20 ∧ limitV2 (MaxParam.num 0) = 20 ∧
    (∀ q env,
      respLength (scrapeHandlerV1 q MaxParam.absent env).resp ≤ 20 ∧
      respLength (scrapeHandlerV2 q MaxParam.absent env).resp ≤ 20) := by
  refine ⟨by decide, by decide, by decide, by decide, by decide, by decide, ?_⟩
  intro q env
  constructor
  · have h := (scrapeHandlerV1_length q MaxParam.absent env).1
    have h20 : (limitV1 MaxParam.absent).toNat = 20 := by decide
    omega
  · have h := (scrapeHandlerV2_length q MaxParam.absent env).1
    have h20 : (limitV2 MaxParam.absent).toNat = 20 := by decide
    omega

end MapsScraper
